import Mathlib

/-!
Verification of the gspotty command-line client.

The program (src/cmd/gspotty/main.go) is a thin dispatcher: it checks two
environment variables, parses flags, and routes to one of profile lookup,
stop-playback, interactive menu, or a search flow.  We embed the dispatcher
shallowly: the parsed flag values form a structure, and the effects the
program performs (calls into the cli/menu/profile packages, error printing,
usage printing) are recorded as a list of actions.  The companion shell
script scripts/play is embedded as a function of its inputs (argument list,
whether the binary file exists, and the exit status the binary returns).
-/

namespace Gspotty

/-- The parsed command-line flag values, as defined in main.go lines 49-61. -/
structure Flags where
  searchType : String
  searchQuery : String
  artistName : String
  limit : Int
  showDetails : Bool
  interactive : Bool
  returnToMenu : Bool
  keepPlaying : Bool
  autoPlay : Bool
  stopPlayback : Bool
  userID : String
deriving DecidableEq, Repr

/-- The observable effects of one invocation of main: calls into the
cli/menu/profile packages, with the arguments passed at the call sites,
and the error/usage output written by main itself. -/
inductive Action where
  | getProfile (userID : String)
  | stopCurrentlyPlaying
  | runInteractiveMenu (keepPlaying : Bool)
  | searchTracksWithMenu (query artist : String) (limit : Int)
      (showDetails keepPlaying autoPlay : Bool)
  | searchAlbumsWithMenu (query : String) (limit : Int)
      (showDetails keepPlaying autoPlay : Bool)
  | searchPlaylistsWithMenu (query : String) (limit : Int)
      (showDetails keepPlaying autoPlay : Bool)
  | searchTracks (query artist : String) (limit : Int)
      (showDetails keepPlaying autoPlay : Bool)
  | searchAlbums (query : String) (limit : Int)
      (showDetails keepPlaying autoPlay : Bool)
  | searchPlaylists (query : String) (limit : Int)
      (showDetails keepPlaying autoPlay : Bool)
  | printError (msg : String)
  | printUsage
deriving DecidableEq, Repr

/-- Whether an action is a call to one of the six search functions. -/
def Action.isSearch : Action → Bool
  | .searchTracksWithMenu .. => true
  | .searchAlbumsWithMenu .. => true
  | .searchPlaylistsWithMenu .. => true
  | .searchTracks .. => true
  | .searchAlbums .. => true
  | .searchPlaylists .. => true
  | _ => false

/-- The separator banner line printed around the credential diagnostic:
sixty-five repetitions of the equals-sign character. -/
def sepLine : String := String.mk (List.replicate 65 (Char.ofNat 61))

/-- checkEnvironmentVariables (main.go lines 15-42): if either credential is
empty it prints a diagnostic block and calls os.Exit(1).  We return the
printed lines when the function exits, and none when it falls through. -/
def checkEnvironmentVariables (clientID clientSecret : String) :
    Option (List String) :=
  if clientID = "" ∨ clientSecret = "" then
    some
      ([sepLine,
        "ERROR: Spotify API credentials not properly configured",
        sepLine]
       ++ (if clientID = "" then ["Missing SPOTIFY_ID environment variable"]
           else [])
       ++ (if clientSecret = "" then
             ["Missing SPOTIFY_SECRET environment variable"]
           else [])
       ++ ["\nTo set up your credentials:",
           "1. Go to https://developer.spotify.com/dashboard/",
           "2. Log in and create a new app",
           "3. Set the redirect URI to http://localhost:8888/callback in your app settings",
           "4. Set these environment variables with your credentials:",
           "   export SPOTIFY_ID=your_client_id",
           "   export SPOTIFY_SECRET=your_client_secret",
           sepLine])
  else
    none

/-- The validTypes map of main.go lines 149-153: a Go map lookup returning
false for any key other than the three inserted ones. -/
def validTypes (t : String) : Bool :=
  t = "track" || t = "album" || t = "playlist"

/-- The error line printed for an invalid search type (main.go line 156). -/
def invalidTypeMsg (t : String) : String :=
  "Error: invalid search type '" ++ t ++ "'. Must be one of: track, album, playlist"

/-- The error line printed for an empty search query (main.go line 163). -/
def missingQueryMsg : String :=
  "Error: missing search query"

/-- The validation and search portion of main (main.go lines 148-187):
validate the search type, then the query, then select one of the six
search functions by the pair (returnToMenu, searchType).  A Go switch with
no matching case performs nothing, hence the empty lists on the
unreachable default branches. -/
def searchFlow (f : Flags) : List Action :=
  if ¬ validTypes f.searchType then
    [.printError (invalidTypeMsg f.searchType), .printUsage]
  else if f.searchQuery = "" then
    [.printError missingQueryMsg, .printUsage]
  else if f.returnToMenu then
    if f.searchType = "track" then
      [.searchTracksWithMenu f.searchQuery f.artistName f.limit
         f.showDetails f.keepPlaying f.autoPlay]
    else if f.searchType = "album" then
      [.searchAlbumsWithMenu f.searchQuery f.limit
         f.showDetails f.keepPlaying f.autoPlay]
    else if f.searchType = "playlist" then
      [.searchPlaylistsWithMenu f.searchQuery f.limit
         f.showDetails f.keepPlaying f.autoPlay]
    else []
  else
    if f.searchType = "track" then
      [.searchTracks f.searchQuery f.artistName f.limit
         f.showDetails f.keepPlaying f.autoPlay]
    else if f.searchType = "album" then
      [.searchAlbums f.searchQuery f.limit
         f.showDetails f.keepPlaying f.autoPlay]
    else if f.searchType = "playlist" then
      [.searchPlaylists f.searchQuery f.limit
         f.showDetails f.keepPlaying f.autoPlay]
    else []

/-- The dispatcher body of main (main.go lines 126-187): the -u check, then
the -s check, then the -i check, then the search flow.  Each of the first
three branches ends in a Go return statement, so at most one branch runs. -/
def dispatch (f : Flags) : List Action :=
  if f.userID ≠ "" then
    [.getProfile f.userID]
  else if f.stopPlayback then
    [.stopCurrentlyPlaying]
  else if f.interactive then
    [.runInteractiveMenu f.keepPlaying]
  else
    searchFlow f

/-- The outcome of one program run: the process exit status, the lines the
credential check printed, the dispatcher actions, and whether os.Exit was
called (as opposed to main returning normally, which in Go yields
status 0). -/
structure RunResult where
  exitCode : Nat
  output : List String
  actions : List Action
  calledOsExit : Bool
deriving DecidableEq, Repr

/-- main (main.go lines 44-188): the credential check runs first (line 46),
before flag parsing (line 119) and the dispatcher; if it exits nothing else
happens.  Otherwise main dispatches and returns normally, so the process
exit status is 0. -/
def main (clientID clientSecret : String) (f : Flags) : RunResult :=
  match checkEnvironmentVariables clientID clientSecret with
  | some msgs =>
      { exitCode := 1, output := msgs, actions := [], calledOsExit := true }
  | none =>
      { exitCode := 0, output := [], actions := dispatch f,
        calledOsExit := false }

/-- The outcome of one run of the scripts/play shell script. -/
structure PlayResult where
  exitCode : Nat
  ranBinary : Bool
  binaryArgs : List String
deriving DecidableEq, Repr

/-- scripts/play: with no arguments it prints usage and exits 1; if the
gspotty binary file does not exist it prints an error and exits 1;
otherwise it runs the binary with -t track, -q set to all arguments joined
by a space (the shell expansion of the asterisk parameter), -p and -k, and
exits 1 when the binary's status is non-zero, falling off the end (status
0) when it is zero. -/
def play (args : List String) (binaryOnDisk : Bool) (binaryStatus : Nat) :
    PlayResult :=
  if args.length = 0 then
    { exitCode := 1, ranBinary := false, binaryArgs := [] }
  else if ¬ binaryOnDisk then
    { exitCode := 1, ranBinary := false, binaryArgs := [] }
  else
    let a := ["-t", "track", "-q", String.intercalate " " args, "-p", "-k"]
    if binaryStatus = 0 then
      { exitCode := 0, ranBinary := true, binaryArgs := a }
    else
      { exitCode := 1, ranBinary := true, binaryArgs := a }

/-- The default flag values of main.go lines 49-61: -t defaults to "track",
-l to 5, -q, -a and -u to the empty string, every boolean flag to false. -/
def baseFlags : Flags :=
  { searchType := "track", searchQuery := "", artistName := "", limit := 5,
    showDetails := false, interactive := false, returnToMenu := false,
    keepPlaying := false, autoPlay := false, stopPlayback := false,
    userID := "" }

/-- C1: with credentials set, the dispatcher routes in order: non-empty -u
gives exactly the profile lookup; otherwise -s gives exactly the
stop-playback call and no search; otherwise -i gives exactly the
interactive menu; otherwise the search flow is entered. -/
theorem C1_dispatch_order (cid cs : String) (f : Flags)
    (hid : cid ≠ "") (hcs : cs ≠ "") :
    ((main cid cs f).actions = dispatch f) ∧
    (f.userID ≠ "" → dispatch f = [.getProfile f.userID]) ∧
    (f.userID = "" → f.stopPlayback = true →
      dispatch f = [.stopCurrentlyPlaying] ∧
      ∀ a ∈ dispatch f, a.isSearch = false) ∧
    (f.userID = "" → f.stopPlayback = false → f.interactive = true →
      dispatch f = [.runInteractiveMenu f.keepPlaying]) ∧
    (f.userID = "" → f.stopPlayback = false → f.interactive = false →
      dispatch f = searchFlow f) := by
  refine ⟨?_, ?_, ?_, ?_, ?_⟩
  · simp [main, checkEnvironmentVariables, hid, hcs]
  · intro hu
    simp [dispatch, hu]
  · intro hu hs
    refine ⟨by simp [dispatch, hu, hs], ?_⟩
    intro a ha
    simp [dispatch, hu, hs] at ha
    simp [ha, Action.isSearch]
  · intro hu hs hi
    simp [dispatch, hu, hs, hi]
  · intro hu hs hi
    simp [dispatch, hu, hs, hi]

/-- Witness for C1 at a concrete invocation with -u alice. -/
theorem C1_dispatch_order_witness :
    (main "id" "secret" { baseFlags with userID := "alice" }).actions =
      dispatch { baseFlags with userID := "alice" } :=
  (C1_dispatch_order "id" "secret" { baseFlags with userID := "alice" }
    (by decide) (by decide)).1

/-- C2: with either credential unset, the program exits with status 1 via
os.Exit before performing any dispatcher action, printing the name of each
missing variable (both names when both are missing). -/
theorem C2_missing_credentials (cid cs : String) (f : Flags)
    (h : cid = "" ∨ cs = "") :
    (main cid cs f).exitCode = 1 ∧
    (main cid cs f).calledOsExit = true ∧
    (main cid cs f).actions = [] ∧
    (cid = "" →
      "Missing SPOTIFY_ID environment variable" ∈ (main cid cs f).output) ∧
    (cs = "" →
      "Missing SPOTIFY_SECRET environment variable" ∈ (main cid cs f).output) := by
  rw [main, checkEnvironmentVariables, if_pos h]
  refine ⟨rfl, rfl, rfl, ?_, ?_⟩
  · intro hc
    simp [hc]
  · intro hc
    simp [hc]

/-- Witness for C2 with both credentials absent. -/
theorem C2_missing_credentials_witness :
    (main "" "" baseFlags).exitCode = 1 ∧
    "Missing SPOTIFY_ID environment variable" ∈ (main "" "" baseFlags).output ∧
    "Missing SPOTIFY_SECRET environment variable" ∈ (main "" "" baseFlags).output := by
  have h := C2_missing_credentials "" "" baseFlags (Or.inl rfl)
  exact ⟨h.1, h.2.2.2.1 rfl, h.2.2.2.2 rfl⟩

/-- C3: with credentials set, -u empty, -s and -i unset, and an invalid -t
value, the program prints an error containing that value followed by the
usage text, and no search function is called. -/
theorem C3_invalid_type (cid cs : String) (f : Flags)
    (hid : cid ≠ "") (hcs : cs ≠ "") (hu : f.userID = "")
    (hs : f.stopPlayback = false) (hi : f.interactive = false)
    (ht : validTypes f.searchType = false) :
    (main cid cs f).actions =
      [.printError (invalidTypeMsg f.searchType), .printUsage] ∧
    (∃ pre post, invalidTypeMsg f.searchType = pre ++ f.searchType ++ post) ∧
    (∀ a ∈ (main cid cs f).actions, a.isSearch = false) := by
  have hact : (main cid cs f).actions =
      [.printError (invalidTypeMsg f.searchType), .printUsage] := by
    simp [main, checkEnvironmentVariables, hid, hcs, dispatch, hu, hs, hi,
      searchFlow, ht]
  refine ⟨hact, ⟨"Error: invalid search type '",
    "'. Must be one of: track, album, playlist", rfl⟩, ?_⟩
  intro a ha
  rw [hact] at ha
  simp at ha
  rcases ha with ha | ha <;> simp [ha, Action.isSearch]

/-- Witness for C3 at -t foo -q something. -/
theorem C3_invalid_type_witness :
    (main "id" "secret"
      { baseFlags with searchType := "foo", searchQuery := "x" }).actions =
      [.printError (invalidTypeMsg "foo"), .printUsage] :=
  (C3_invalid_type "id" "secret"
    { baseFlags with searchType := "foo", searchQuery := "x" }
    (by decide) (by decide) rfl rfl rfl (by decide)).1

/-- C4: with credentials set, -u empty, -s and -i unset, a valid -t value
and an empty -q value, the program prints the missing-query error followed
by the usage text, and no search function is called. -/
theorem C4_empty_query (cid cs : String) (f : Flags)
    (hid : cid ≠ "") (hcs : cs ≠ "") (hu : f.userID = "")
    (hs : f.stopPlayback = false) (hi : f.interactive = false)
    (ht : validTypes f.searchType = true) (hq : f.searchQuery = "") :
    (main cid cs f).actions = [.printError missingQueryMsg, .printUsage] ∧
    (∀ a ∈ (main cid cs f).actions, a.isSearch = false) := by
  have hact : (main cid cs f).actions =
      [.printError missingQueryMsg, .printUsage] := by
    simp [main, checkEnvironmentVariables, hid, hcs, dispatch, hu, hs, hi,
      searchFlow, ht, hq]
  refine ⟨hact, ?_⟩
  intro a ha
  rw [hact] at ha
  simp at ha
  rcases ha with ha | ha <;> simp [ha, Action.isSearch]

/-- Witness for C4 at -t track -q with an empty query string. -/
theorem C4_empty_query_witness :
    (main "id" "secret" baseFlags).actions =
      [.printError missingQueryMsg, .printUsage] :=
  (C4_empty_query "id" "secret" baseFlags
    (by decide) (by decide) rfl rfl rfl (by decide) rfl).1

/-- C5 counterexample: at the concrete invocation -t foo -q x (credentials
set) the program hits the invalid-type validation error, yet main returns
normally, so the Go process exit status is 0 — not non-zero as claimed. -/
theorem C5_counterexample :
    (main "id" "secret"
      { baseFlags with searchType := "foo", searchQuery := "x" }).actions =
      [.printError (invalidTypeMsg "foo"), .printUsage] ∧
    (main "id" "secret"
      { baseFlags with searchType := "foo", searchQuery := "x" }).exitCode = 0 ∧
    (main "id" "secret"
      { baseFlags with searchType := "foo", searchQuery := "x" }).calledOsExit
      = false :=
  ⟨rfl, rfl, rfl⟩

/-- C5 amended: on every validation error (invalid search type or empty
query) the program terminates without any explicit process abort — no
os.Exit on that path — and the resulting exit status is 0, since main just
returns. -/
theorem C5_validation_no_abort (cid cs : String) (f : Flags)
    (hid : cid ≠ "") (hcs : cs ≠ "") (hu : f.userID = "")
    (hs : f.stopPlayback = false) (hi : f.interactive = false)
    (hv : validTypes f.searchType = false ∨ f.searchQuery = "") :
    (main cid cs f).exitCode = 0 ∧
    (main cid cs f).calledOsExit = false ∧
    Action.printUsage ∈ (main cid cs f).actions := by
  refine ⟨by simp [main, checkEnvironmentVariables, hid, hcs], ?_, ?_⟩
  · simp [main, checkEnvironmentVariables, hid, hcs]
  · have hact : (main cid cs f).actions = searchFlow f := by
      simp [main, checkEnvironmentVariables, hid, hcs, dispatch, hu, hs, hi]
    rw [hact]
    rcases hv with hv | hv
    · simp [searchFlow, hv]
    · by_cases ht : validTypes f.searchType = false
      · simp [searchFlow, ht]
      · simp at ht
        simp [searchFlow, ht, hv]

/-- Witness for the amended C5 at -t foo -q x. -/
theorem C5_validation_no_abort_witness :
    (main "id" "secret"
      { baseFlags with searchType := "foo", searchQuery := "x" }).exitCode
      = 0 :=
  (C5_validation_no_abort "id" "secret"
    { baseFlags with searchType := "foo", searchQuery := "x" }
    (by decide) (by decide) rfl rfl rfl (Or.inl (by decide))).1

/-- C6: on the search path (credentials set, -u empty, -s and -i unset,
valid type, non-empty query) exactly one search function is called,
selected by the pair (search type, return-to-menu flag), receiving the
query, limit, details, keep-playing and auto-play values, with the artist
filter passed only for track searches. -/
theorem C6_search_selection (cid cs : String) (f : Flags)
    (hid : cid ≠ "") (hcs : cs ≠ "") (hu : f.userID = "")
    (hs : f.stopPlayback = false) (hi : f.interactive = false)
    (ht : validTypes f.searchType = true) (hq : f.searchQuery ≠ "") :
    ((main cid cs f).actions.length = 1 ∧
      ∀ a ∈ (main cid cs f).actions, a.isSearch = true) ∧
    (f.returnToMenu = true → f.searchType = "track" →
      (main cid cs f).actions = [.searchTracksWithMenu f.searchQuery
        f.artistName f.limit f.showDetails f.keepPlaying f.autoPlay]) ∧
    (f.returnToMenu = true → f.searchType = "album" →
      (main cid cs f).actions = [.searchAlbumsWithMenu f.searchQuery
        f.limit f.showDetails f.keepPlaying f.autoPlay]) ∧
    (f.returnToMenu = true → f.searchType = "playlist" →
      (main cid cs f).actions = [.searchPlaylistsWithMenu f.searchQuery
        f.limit f.showDetails f.keepPlaying f.autoPlay]) ∧
    (f.returnToMenu = false → f.searchType = "track" →
      (main cid cs f).actions = [.searchTracks f.searchQuery
        f.artistName f.limit f.showDetails f.keepPlaying f.autoPlay]) ∧
    (f.returnToMenu = false → f.searchType = "album" →
      (main cid cs f).actions = [.searchAlbums f.searchQuery
        f.limit f.showDetails f.keepPlaying f.autoPlay]) ∧
    (f.returnToMenu = false → f.searchType = "playlist" →
      (main cid cs f).actions = [.searchPlaylists f.searchQuery
        f.limit f.showDetails f.keepPlaying f.autoPlay]) := by
  have hact : (main cid cs f).actions = searchFlow f := by
    simp [main, checkEnvironmentVariables, hid, hcs, dispatch, hu, hs, hi]
  have ht3 : f.searchType = "track" ∨ f.searchType = "album" ∨
      f.searchType = "playlist" := by
    have h := ht
    simp [validTypes] at h
    tauto
  rw [hact]
  cases hr : f.returnToMenu <;>
    rcases ht3 with h3 | h3 | h3 <;>
    simp [searchFlow, validTypes, h3, hr, hq, Action.isSearch]

/-- Witness for C6 at -t album -q x -r. -/
theorem C6_search_selection_witness :
    (main "id" "secret" { baseFlags with searchType := "album", searchQuery := "x", returnToMenu := true }).actions =
      [.searchAlbumsWithMenu "x" 5 false false false] :=
  (C6_search_selection "id" "secret"
    { baseFlags with searchType := "album", searchQuery := "x", returnToMenu := true }
    (by decide) (by decide) rfl rfl rfl (by decide) (by decide)).2.2.1
    rfl rfl

/-- C7: the play script exits 1 with no arguments; exits 1 when the gspotty
binary file is missing; otherwise runs the binary with -t track, -q set to
all arguments joined, -p and -k, and exits 1 exactly when the binary exits
non-zero. -/
theorem C7_play_script (args : List String) (onDisk : Bool) (status : Nat) :
    (args = [] → play args onDisk status =
      { exitCode := 1, ranBinary := false, binaryArgs := [] }) ∧
    (onDisk = false → play args onDisk status =
      { exitCode := 1, ranBinary := false, binaryArgs := [] }) ∧
    (args ≠ [] → onDisk = true →
      (play args onDisk status).ranBinary = true ∧
      (play args onDisk status).binaryArgs =
        ["-t", "track", "-q", String.intercalate " " args, "-p", "-k"] ∧
      ((play args onDisk status).exitCode = 1 ↔ status ≠ 0) ∧
      ((play args onDisk status).exitCode = 0 ↔ status = 0)) := by
  refine ⟨?_, ?_, ?_⟩
  · intro h
    simp [play, h]
  · intro h
    subst h
    by_cases ha : args.length = 0 <;> simp [play, ha]
  · intro ha hd
    have ha' : args.length ≠ 0 := by simpa using ha
    by_cases h0 : status = 0 <;> simp [play, ha', hd, h0]

/-- Witness for C7 at play with two arguments, binary present, status 0. -/
theorem C7_play_script_witness :
    (play ["hey", "jude"] true 0).binaryArgs =
      ["-t", "track", "-q", String.intercalate " " ["hey", "jude"],
        "-p", "-k"] :=
  ((C7_play_script ["hey", "jude"] true 0).2.2 (by decide) rfl).2.1

/-- C8: the credential check runs before flag handling: with a missing
credential the run outcome is identical for any two flag assignments, the
exit status is 1 via os.Exit, and no dispatcher action or usage printing
occurs. -/
theorem C8_env_check_first (cid cs : String) (f g : Flags)
    (h : cid = "" ∨ cs = "") :
    main cid cs f = main cid cs g ∧
    (main cid cs f).exitCode = 1 ∧
    (main cid cs f).calledOsExit = true ∧
    (main cid cs f).actions = [] ∧
    Action.printUsage ∉ (main cid cs f).actions := by
  rw [main, main, checkEnvironmentVariables, if_pos h]
  exact ⟨rfl, rfl, rfl, rfl, by simp⟩

/-- Witness for C8: with SPOTIFY_ID missing, the outcomes for a bare
invocation and for one with every routing flag set coincide. -/
theorem C8_env_check_first_witness :
    main "" "secret" baseFlags =
      main "" "secret" { baseFlags with interactive := true, stopPlayback := true, userID := "alice" } :=
  (C8_env_check_first "" "secret" baseFlags
    { baseFlags with interactive := true, stopPlayback := true, userID := "alice" }
    (Or.inl rfl)).1

/-- C9: a non-empty -u runs only the profile lookup, whatever -s, -i or the
search flags hold: neither stop playback, nor the menu, nor any search is
invoked; and with -u empty, -s takes precedence over -i. -/
theorem C9_flag_precedence (f : Flags) :
    (f.userID ≠ "" →
      dispatch f = [.getProfile f.userID] ∧
      Action.stopCurrentlyPlaying ∉ dispatch f ∧
      (∀ k, Action.runInteractiveMenu k ∉ dispatch f) ∧
      (∀ a ∈ dispatch f, a.isSearch = false)) ∧
    (f.userID = "" → f.stopPlayback = true →
      dispatch f = [.stopCurrentlyPlaying] ∧
      ∀ k, Action.runInteractiveMenu k ∉ dispatch f) := by
  constructor
  · intro hu
    have hd : dispatch f = [.getProfile f.userID] := by simp [dispatch, hu]
    refine ⟨hd, by simp [hd], by simp [hd], ?_⟩
    intro a ha
    rw [hd] at ha
    simp at ha
    simp [ha, Action.isSearch]
  · intro hu hs
    have hd : dispatch f = [.stopCurrentlyPlaying] := by
      simp [dispatch, hu, hs]
    exact ⟨hd, by simp [hd]⟩

/-- Witness for C9 with -u alice, -s and -i all given. -/
theorem C9_flag_precedence_witness :
    dispatch { baseFlags with userID := "alice", stopPlayback := true, interactive := true } =
      [.getProfile "alice"] :=
  ((C9_flag_precedence
    { baseFlags with userID := "alice", stopPlayback := true, interactive := true }).1
    (by decide)).1

/-- C10: in interactive mode (-i set, -u empty, -s unset) no validation
happens and no search function is called whatever -t and -q hold; of the
remaining flags only keep-playing is forwarded to the menu, and any two
such invocations agreeing on keep-playing behave identically. -/
theorem C10_interactive_frame (f g : Flags)
    (hu : f.userID = "") (hs : f.stopPlayback = false)
    (hi : f.interactive = true) :
    dispatch f = [.runInteractiveMenu f.keepPlaying] ∧
    (∀ a ∈ dispatch f, a.isSearch = false) ∧
    Action.printUsage ∉ dispatch f ∧
    (∀ m, Action.printError m ∉ dispatch f) ∧
    (g.userID = "" → g.stopPlayback = false → g.interactive = true →
      g.keepPlaying = f.keepPlaying → dispatch g = dispatch f) := by
  have hd : dispatch f = [.runInteractiveMenu f.keepPlaying] := by
    simp [dispatch, hu, hs, hi]
  refine ⟨hd, ?_, by simp [hd], by simp [hd], ?_⟩
  · intro a ha
    rw [hd] at ha
    simp at ha
    simp [ha, Action.isSearch]
  · intro hgu hgs hgi hgk
    simp [dispatch, hgu, hgs, hgi, hu, hs, hi, hgk]

/-- Witness for C10: -i with an invalid type, empty query and every other
flag set behaves as -i alone with the same keep-playing value. -/
theorem C10_interactive_frame_witness :
    dispatch { baseFlags with interactive := true, searchType := "foo", returnToMenu := true, autoPlay := true, showDetails := true, artistName := "q", limit := 99 } =
      [.runInteractiveMenu false] :=
  (C10_interactive_frame
    { baseFlags with interactive := true, searchType := "foo", returnToMenu := true, autoPlay := true, showDetails := true, artistName := "q", limit := 99 }
    baseFlags rfl rfl rfl).1

end Gspotty
